import Mathlib

/-
Shallow embedding of the Alert Notification Service of this repository
(src/alert_notification_service.h, src/alert_notification_service.cpp).

Modelling conventions:
- The four 16-bit configuration bitmasks (`uint16_t`) and the 8-bit alert
  counters (`uint8_t`) are Nats; arithmetic that can overflow in C++ is
  reduced modulo 2^16 / 2^8 / 2^32 explicitly at the point the source
  stores into the fixed-width field.
- `_alert_status` is a 10-element C array indexed by a raw byte in the
  source; the source performs no bounds check, so the model stores the
  per-slot `category` and `count` fields as total functions on Nat
  (an unbounded array): writes or reads the C++ code performs past
  index 9 land on indices >= 10 of these functions.  The separate
  function `alertStatusIndicesAccessed` records, straight from the
  source text, which `_alert_status` indices a control-point write
  touches, so that in-bounds claims can be stated against it.
- A "notification" is one `setCharacteristicValue` call on one of the two
  NOTIFY characteristics, modelled as the pair
  (characteristic index, value written).  The constructor assigns
  index 2 to the Unread Alert characteristic and index 3 to the
  New Alert characteristic.  `setCharacteristicValue` calls on the two
  READ-only supported-category characteristics merely refresh a readable
  attribute and are not part of the modelled state.
- `std::cout` logging is ignored.
-/

/-- The `ANS_ALERT_CATEGORY_COUNT` macro of the header (10 categories). -/
def ANS_ALERT_CATEGORY_COUNT : Nat := 10

/-- A push to the peer: (characteristic index, value written), one per
`setCharacteristicValue` call on a NOTIFY characteristic. -/
abbrev Notification := Nat × Nat

/-- Index of the New Alert characteristic (`_new_alert_index = 3` in the constructor). -/
def newAlertIndex : Nat := 3

/-- Index of the Unread Alert Status characteristic (`_unread_alert_status_index = 2`). -/
def unreadAlertStatusIndex : Nat := 2

/-- State of `CAlertNotificationService`: the members that the modelled
operations read or write. `alertCat i` and `alertCount i` are the
`category` and `count` fields of `_alert_status[i]` (total functions on
Nat, see the file comment); `cpCommand`/`cpCategory` are the latched
`_control_point.fields`. -/
structure ANSState where
  connected : Bool
  buttonPressCount : Nat
  supportedNew : Nat
  supportedUnread : Nat
  enabledNew : Nat
  enabledUnread : Nat
  alertCat : Nat → Nat
  alertCount : Nat → Nat
  cpCommand : Nat
  cpCategory : Nat

/-- `CAlertNotificationService::getCategoryMaskFromId`:
`(category != ANS_TYPE_ALL_ALERTS) ? (1 << (int)category) : ANS_TYPE_MASK_ALL_ALERTS`,
with the result truncated to the `uint16_t` return type; `ANS_TYPE_ALL_ALERTS`
is 0xFF and `ANS_TYPE_MASK_ALL_ALERTS` is 0x03FF. -/
def getCategoryMaskFromId (category : Nat) : Nat :=
  if category ≠ 255 then (1 <<< category) % 65536 else 1023

/-- `CAlertNotificationService::getCategoryIdFromMask`: the ascending loop
over `ii = 0 .. ANS_ALERT_CATEGORY_COUNT - 1` that breaks at the first set
bit, with `category` defaulting to 0. -/
def getCategoryIdFromMask (mask : Nat) : Nat :=
  (((List.range ANS_ALERT_CATEGORY_COUNT).find? fun ii =>
      mask &&& (1 <<< ii) != 0).getD 0)

/-- One arm of the `switch` in `clearAlertsOfCategory`: zero the count of
one concrete slot. -/
def clearOneSlot (s : ANSState) (c : Nat) : ANSState :=
  { s with alertCount := fun i => if i = c then 0 else s.alertCount i }

/-- `CAlertNotificationService::clearAlertsOfCategory`: a `switch` with one
case per concrete category 0..9 zeroing that slot, a case for
`ANS_TYPE_ALL_ALERTS` (0xFF) zeroing every slot `0 .. ANS_ALERT_CATEGORY_COUNT - 1`,
and a default case doing nothing. -/
def clearAlertsOfCategory (s : ANSState) (category : Nat) : ANSState :=
  if category = 0 then clearOneSlot s 0
  else if category = 1 then clearOneSlot s 1
  else if category = 2 then clearOneSlot s 2
  else if category = 3 then clearOneSlot s 3
  else if category = 4 then clearOneSlot s 4
  else if category = 5 then clearOneSlot s 5
  else if category = 6 then clearOneSlot s 6
  else if category = 7 then clearOneSlot s 7
  else if category = 8 then clearOneSlot s 8
  else if category = 9 then clearOneSlot s 9
  else if category = 255 then
    { s with alertCount := fun i => if i < ANS_ALERT_CATEGORY_COUNT then 0 else s.alertCount i }
  else s

/-- Case `ANS_ENABLE_NEW_INCOMING_ALERT_NOTIFICATION` of the control-point
`switch` (cpp lines 161-177): if the category mask intersects
`_supported_new_alert_category`, OR it into `_enabled_new_alert_category`.
The Bool records which branch was taken (the source logs
"Supported and enabled." versus "Category not supported."). -/
def tryEnableNew (s : ANSState) (categoryMask : Nat) : ANSState × Bool :=
  if s.supportedNew &&& categoryMask ≠ 0 then
    ({ s with enabledNew := s.enabledNew ||| categoryMask }, true)
  else (s, false)

/-- Case `ANS_ENABLE_UNREAD_CATEGORY_STATUS_NOTIFICATION` (cpp lines 178-187). -/
def tryEnableUnread (s : ANSState) (categoryMask : Nat) : ANSState × Bool :=
  if s.supportedUnread &&& categoryMask ≠ 0 then
    ({ s with enabledUnread := s.enabledUnread ||| categoryMask }, true)
  else (s, false)

/-- Case `ANS_DISABLE_NEW_INCOMING_ALERT_NOTIFICATION` (cpp lines 188-204):
if supported, `_enabled_new_alert_category &= ~categoryMask`; the `uint16_t`
complement of the mask is `65535 ^^^ categoryMask`. -/
def tryDisableNew (s : ANSState) (categoryMask : Nat) : ANSState × Bool :=
  if s.supportedNew &&& categoryMask ≠ 0 then
    ({ s with enabledNew := s.enabledNew &&& (65535 ^^^ categoryMask) }, true)
  else (s, false)

/-- Case `ANS_DISABLE_UNREAD_CATEGORY_STATUS_NOTIFICATION` (cpp lines 205-216). -/
def tryDisableUnread (s : ANSState) (categoryMask : Nat) : ANSState × Bool :=
  if s.supportedUnread &&& categoryMask ≠ 0 then
    ({ s with enabledUnread := s.enabledUnread &&& (65535 ^^^ categoryMask) }, true)
  else (s, false)

/-- The unconditional writes the handler performs for every 2-byte buffer
before the `switch` (cpp lines 155-157):
`_alert_status[category].fields.category = category;`
`_control_point.fields.command = command; _control_point.fields.category = category;`. -/
def latchControlPoint (s : ANSState) (command category : Nat) : ANSState :=
  { s with
    alertCat := fun i => if i = category then category else s.alertCat i,
    cpCommand := command,
    cpCategory := category }

/-- The `switch (command)` of `onDataWrittenHandler` (cpp lines 160-253),
applied to the state after `latchControlPoint`.  Command 4 with category
0xFF runs `for (int i = 0; i <= ANS_ALERT_CATEGORY_COUNT; i++)` - note the
`<=`, so `i` ranges over 0..10 - and for each set bit of
`_enabled_new_alert_category` pushes `_button_press_count` to the New Alert
characteristic; with a concrete category it pushes
`_alert_status[category].fields.count` when that category is enabled.
Command 5 pushes `_alert_status[category].fields.count` to the Unread
Alert characteristic when the category's unread bit is enabled.
Any other command value falls through to `default` and does nothing. -/
def dispatchCommand (s : ANSState) (command category : Nat) : ANSState × List Notification :=
  match command with
  | 0 => ((tryEnableNew s (getCategoryMaskFromId category)).1, [])
  | 1 => ((tryEnableUnread s (getCategoryMaskFromId category)).1, [])
  | 2 => ((tryDisableNew s (getCategoryMaskFromId category)).1, [])
  | 3 => ((tryDisableUnread s (getCategoryMaskFromId category)).1, [])
  | 4 =>
    if category = 255 then
      (s, (List.range (ANS_ALERT_CATEGORY_COUNT + 1)).filterMap fun i =>
            if s.enabledNew &&& ((1 <<< i) % 65536) ≠ 0 then
              some (newAlertIndex, s.buttonPressCount)
            else none)
    else if s.enabledNew &&& getCategoryMaskFromId category ≠ 0 then
      (s, [(newAlertIndex, s.alertCount category)])
    else (s, [])
  | 5 =>
    if s.enabledUnread &&& getCategoryMaskFromId category ≠ 0 then
      (s, [(unreadAlertStatusIndex, s.alertCount category)])
    else (s, [])
  | _ => (s, [])

/-- `CAlertNotificationService::onDataWrittenHandler` for a write to the
Alert Notification Control Point characteristic (the only writable one).
A size outside {1, 2} returns without touching anything; size 1 zeroes the
count of every slot `0 .. ANS_ALERT_CATEGORY_COUNT - 1`; size 2 reads
`command = data[0]`, `category = data[1]`, performs the unconditional
latch writes and dispatches the command. -/
def onDataWrittenHandler (s : ANSState) (data : List Nat) : ANSState × List Notification :=
  if data.length < 1 ∨ data.length > 2 then (s, [])
  else if data.length = 1 then
    ({ s with alertCount := fun j => if j < ANS_ALERT_CATEGORY_COUNT then 0 else s.alertCount j }, [])
  else
    dispatchCommand (latchControlPoint s (data.getD 0 0) (data.getD 1 0))
      (data.getD 0 0) (data.getD 1 0)

/-- The `_alert_status` indices `onDataWrittenHandler` touches for one
control-point write, read off the source text: the size-1 branch writes
slots 0..9; every size-2 branch first writes
`_alert_status[category].fields.category` (cpp line 155); command 4 with a
concrete enabled category and command 5 with an enabled category
additionally read `_alert_status[category].fields.count`. -/
def alertStatusIndicesAccessed (s : ANSState) (data : List Nat) : List Nat :=
  if data.length < 1 ∨ data.length > 2 then []
  else if data.length = 1 then List.range ANS_ALERT_CATEGORY_COUNT
  else
    let category := data.getD 1 0
    let command := data.getD 0 0
    category ::
      (match command with
       | 4 =>
         if category = 255 then []
         else if s.enabledNew &&& getCategoryMaskFromId category ≠ 0 then [category] else []
       | 5 =>
         if s.enabledUnread &&& getCategoryMaskFromId category ≠ 0 then [category] else []
       | _ => [])

/-- `CAlertNotificationService::onConnected`: clear all alert counts,
reset `_button_press_count`, set `_connected = true`. -/
def onConnected (s : ANSState) : ANSState :=
  let s1 := clearAlertsOfCategory s 255
  { s1 with buttonPressCount := 0, connected := true }

/-- `CAlertNotificationService::onDisconnected`: set `_connected = false`,
then clear all alert counts. -/
def onDisconnected (s : ANSState) : ANSState :=
  clearAlertsOfCategory { s with connected := false } 255

/-- `CAlertNotificationService::addNewAlertToCategory`: reject if the
category mask misses `_supported_new_alert_category`; otherwise increment
the slot's `uint8_t` count; return early (pushing nothing) if the new-alert
bit is not enabled; otherwise push the count to the New Alert
characteristic; return early if the unread bit is not enabled; otherwise
also push the count to the Unread Alert characteristic.  Result:
(state, notifications pushed, returned bool). -/
def addNewAlertToCategory (s : ANSState) (category : Nat) : ANSState × List Notification × Bool :=
  let category_mask := getCategoryMaskFromId category
  if category_mask &&& s.supportedNew = 0 then (s, [], false)
  else
    let s1 := { s with alertCount :=
      fun i => if i = category then (s.alertCount category + 1) % 256 else s.alertCount i }
    if category_mask &&& s1.enabledNew = 0 then (s1, [], false)
    else if category_mask &&& s1.enabledUnread = 0 then
      (s1, [(newAlertIndex, s1.alertCount category)], false)
    else
      (s1, [(newAlertIndex, s1.alertCount category),
            (unreadAlertStatusIndex, s1.alertCount category)], true)

/-- `CAlertNotificationService::buttonPressedHandler`: increment the
`uint32_t` `_button_press_count`, then raise a simple alert (category 0). -/
def buttonPressedHandler (s : ANSState) : ANSState × List Notification × Bool :=
  addNewAlertToCategory
    { s with buttonPressCount := (s.buttonPressCount + 1) % 4294967296 } 0

/-- The per-bit clearing loop shared by the two `setSupported*` mutators:
`for (ii = 0; ii < ANS_ALERT_CATEGORY_COUNT; ii++) if (m & (1 << ii)) clearAlertsOfCategory(ii);`. -/
def clearNewlySupported (s : ANSState) (m : Nat) : ANSState :=
  (List.range ANS_ALERT_CATEGORY_COUNT).foldl
    (fun acc ii => if m &&& (1 <<< ii) ≠ 0 then clearAlertsOfCategory acc ii else acc) s

/-- `CAlertNotificationService::setSupportedUnreadAlertsCategory`:
rejected while connected; otherwise overwrite the `uint16_t` supported
mask and clear the counters of every category in the new mask. -/
def setSupportedUnreadAlertsCategory (s : ANSState) (m : Nat) : ANSState × Bool :=
  if s.connected then (s, false)
  else
    let s1 := { s with supportedUnread := m % 65536 }
    (clearNewlySupported s1 m, true)

/-- `CAlertNotificationService::addSupportedUnreadAlertsCategory`:
rejected while connected; otherwise OR the category's mask in and clear
that category's counters. -/
def addSupportedUnreadAlertsCategory (s : ANSState) (c : Nat) : ANSState × Bool :=
  if s.connected then (s, false)
  else
    let s1 := { s with supportedUnread := s.supportedUnread ||| getCategoryMaskFromId c }
    (clearAlertsOfCategory s1 c, true)

/-- `CAlertNotificationService::removeSupportedUnreadAlertsCategory`:
rejected while connected; otherwise AND the `uint16_t` complement of the
category's mask in and clear that category's counters.  Note the `enabled`
mask is not touched. -/
def removeSupportedUnreadAlertsCategory (s : ANSState) (c : Nat) : ANSState × Bool :=
  if s.connected then (s, false)
  else
    let s1 := { s with supportedUnread := s.supportedUnread &&& (65535 ^^^ getCategoryMaskFromId c) }
    (clearAlertsOfCategory s1 c, true)

/-- `CAlertNotificationService::setSupportedNewAlertsCategory` (cpp lines 404-426). -/
def setSupportedNewAlertsCategory (s : ANSState) (m : Nat) : ANSState × Bool :=
  if s.connected then (s, false)
  else
    let s1 := { s with supportedNew := m % 65536 }
    (clearNewlySupported s1 m, true)

/-- `CAlertNotificationService::addSupportedNewAlertsCategory` (cpp lines 428-447). -/
def addSupportedNewAlertsCategory (s : ANSState) (c : Nat) : ANSState × Bool :=
  if s.connected then (s, false)
  else
    let s1 := { s with supportedNew := s.supportedNew ||| getCategoryMaskFromId c }
    (clearAlertsOfCategory s1 c, true)

/-- `CAlertNotificationService::removeSupportedNewAlertsCategory`
(cpp lines 449-465): the `enabled` mask is not touched. -/
def removeSupportedNewAlertsCategory (s : ANSState) (c : Nat) : ANSState × Bool :=
  if s.connected then (s, false)
  else
    let s1 := { s with supportedNew := s.supportedNew &&& (65535 ^^^ getCategoryMaskFromId c) }
    (clearAlertsOfCategory s1 c, true)

/-- The state the constructor builds: all four masks zeroed, counts
zeroed, `_alert_status[i].fields.category = i`, `_control_point` set to
(DISABLE_NEW = 2, ALL = 0xFF), `_connected = false`, then
`setSupportedNewAlertsCategory(ANS_TYPE_MASK_SIMPLE_ALERT)` and
`setSupportedUnreadAlertsCategory(ANS_TYPE_MASK_SIMPLE_ALERT)` (mask 1). -/
def initState : ANSState :=
  let s0 : ANSState :=
    { connected := false
      buttonPressCount := 0
      supportedNew := 0
      supportedUnread := 0
      enabledNew := 0
      enabledUnread := 0
      alertCat := fun i => if i < ANS_ALERT_CATEGORY_COUNT then i else 0
      alertCount := fun _ => 0
      cpCommand := 2
      cpCategory := 255 }
  let s1 := (setSupportedNewAlertsCategory s0 1).1
  (setSupportedUnreadAlertsCategory s1 1).1

/-- The enabled-mask test the source uses to gate new-alert pushes
(`_enabled_new_alert_category & categoryMask`, e.g. cpp line 234),
as a query on one category. -/
def isEnabledNew (s : ANSState) (c : Nat) : Bool :=
  decide (s.enabledNew &&& getCategoryMaskFromId c ≠ 0)

/-- The enabled-mask test for the unread axis
(`_enabled_unread_alert_category & categoryMask`, e.g. cpp line 244). -/
def isEnabledUnread (s : ANSState) (c : Nat) : Bool :=
  decide (s.enabledUnread &&& getCategoryMaskFromId c ≠ 0)

/-- States reachable from the constructor's state through the service's
public entry points: control-point writes, connection transitions, the
six configuration mutators, local alert ingestion and the button path. -/
inductive Reachable : ANSState → Prop
  | init : Reachable initState
  | write (s : ANSState) (data : List Nat) :
      Reachable s → Reachable (onDataWrittenHandler s data).1
  | connect (s : ANSState) : Reachable s → Reachable (onConnected s)
  | disconnect (s : ANSState) : Reachable s → Reachable (onDisconnected s)
  | setSupN (s : ANSState) (m : Nat) :
      Reachable s → Reachable (setSupportedNewAlertsCategory s m).1
  | addSupN (s : ANSState) (c : Nat) :
      Reachable s → Reachable (addSupportedNewAlertsCategory s c).1
  | removeSupN (s : ANSState) (c : Nat) :
      Reachable s → Reachable (removeSupportedNewAlertsCategory s c).1
  | setSupU (s : ANSState) (m : Nat) :
      Reachable s → Reachable (setSupportedUnreadAlertsCategory s m).1
  | addSupU (s : ANSState) (c : Nat) :
      Reachable s → Reachable (addSupportedUnreadAlertsCategory s c).1
  | removeSupU (s : ANSState) (c : Nat) :
      Reachable s → Reachable (removeSupportedUnreadAlertsCategory s c).1
  | raiseAlert (s : ANSState) (c : Nat) :
      Reachable s → Reachable (addNewAlertToCategory s c).1
  | button (s : ANSState) : Reachable s → Reachable (buttonPressedHandler s).1

/-- Scenario A state (spec section 8), built by the service's own
operations: support categories 0 and 2 on the new axis, connect, enable
both over the control point, then raise three alerts in category 0 and
five in category 2.  Result: `enabledNew = {0, 2}`, counts
`{0 : 3, 2 : 5}`, `_button_press_count = 0`. -/
def stateA : ANSState :=
  let s1 := (setSupportedNewAlertsCategory initState 5).1
  let s2 := onConnected s1
  let s3 := (onDataWrittenHandler s2 [0, 0]).1
  let s4 := (onDataWrittenHandler s3 [0, 2]).1
  let r1 := (addNewAlertToCategory s4 0).1
  let r2 := (addNewAlertToCategory r1 0).1
  let r3 := (addNewAlertToCategory r2 0).1
  let r4 := (addNewAlertToCategory r3 2).1
  let r5 := (addNewAlertToCategory r4 2).1
  let r6 := (addNewAlertToCategory r5 2).1
  let r7 := (addNewAlertToCategory r6 2).1
  (addNewAlertToCategory r7 2).1

/-- A reachable state with `supportedNew = {0}` (from the constructor),
`enabledNew = {}`, `enabledUnread = {0}` and all counts zero: connect,
then enable the unread axis for category 0 over the control point. -/
def stateD2 : ANSState :=
  (onDataWrittenHandler (onConnected initState) [1, 0]).1

/-- A reachable state in which category 0 is enabled on the new axis but
no longer supported there: connect, enable category 0 over the control
point, disconnect, then remove category 0 from the supported-new mask
(`removeSupportedNewAlertsCategory` does not clear the enabled bit). -/
def stateStale : ANSState :=
  (removeSupportedNewAlertsCategory
    (onDisconnected (onDataWrittenHandler (onConnected initState) [0, 0]).1) 0).1

/-! Helper lemmas about the bit-level operations. -/

theorem mask_eq_two_pow (c : Nat) (hc : c < 16) :
    getCategoryMaskFromId c = 2 ^ c := by
  have hne : c ≠ 255 := by omega
  have hlt : 2 ^ c < 65536 := by
    have h1 : (2 : Nat) ^ c ≤ 2 ^ 15 := Nat.pow_le_pow_right (by decide) (by omega)
    have h2 : (2 : Nat) ^ 15 = 32768 := by norm_num
    omega
  simp [getCategoryMaskFromId, hne, Nat.one_shiftLeft, Nat.mod_eq_of_lt hlt]

theorem or_and_two_pow_ne_zero (x c : Nat) : (x ||| 2 ^ c) &&& 2 ^ c ≠ 0 := by
  intro h
  have hb := congrArg (fun t => Nat.testBit t c) h
  simp [Nat.testBit_land, Nat.testBit_lor, Nat.testBit_two_pow_self, Nat.zero_testBit] at hb

theorem and_compl_testBit_self (x c : Nat) (hc : c < 16) :
    (x &&& (65535 ^^^ 2 ^ c)).testBit c = false := by
  have h1 : Nat.testBit 65535 c = true := by interval_cases c <;> decide
  simp [Nat.testBit_land, Nat.testBit_xor, h1, Nat.testBit_two_pow_self]

theorem and_compl_testBit_other (x c j : Nat) (hx : x < 65536) (hne : j ≠ c) :
    (x &&& (65535 ^^^ 2 ^ c)).testBit j = x.testBit j := by
  rcases Nat.lt_or_ge j 16 with hj | hj
  · have h1 : Nat.testBit 65535 j = true := by interval_cases j <;> decide
    have h2 : (2 ^ c).testBit j = false := Nat.testBit_two_pow_of_ne (Ne.symm hne)
    simp [Nat.testBit_land, Nat.testBit_xor, h1, h2]
  · have hxj : x.testBit j = false := Nat.testBit_lt_two_pow (by
      have h2 : (2 : Nat) ^ 16 ≤ 2 ^ j := Nat.pow_le_pow_right (by decide) hj
      have h3 : (2 : Nat) ^ 16 = 65536 := by norm_num
      omega)
    simp [Nat.testBit_land, hxj]

/-! Claim theorems. -/

/-- C1: evaluation of the code at the failing input.  In the reachable
Scenario A state (`enabledNew = {0, 2}`, counts 3 and 5, button-press
count 0) the control-point write `[4, 0xFF]` pushes the button-press
counter twice on the New Alert characteristic, not the stored
per-category counts 3 and 5 that the claim requires. -/
theorem scenarioA_pushes_button_count :
    stateA.enabledNew = 5
  ∧ stateA.alertCount 0 = 3 ∧ stateA.alertCount 2 = 5
  ∧ stateA.buttonPressCount = 0
  ∧ (onDataWrittenHandler stateA [4, 255]).2 = [(newAlertIndex, 0), (newAlertIndex, 0)]
  ∧ (onDataWrittenHandler stateA [4, 255]).2 ≠ [(newAlertIndex, 3), (newAlertIndex, 5)] := by
  decide

/-- C2: evaluation of the code at the failing input.  In the reachable
state `stateD2` (`supportedNew = {0}`, `enabledNew = {}`,
`enabledUnread = {0}`), raising an alert for category 0 increments the
counter but pushes nothing at all: the unread-status push claimed to be
independently gated is skipped because the new-alert gate failed first. -/
theorem raiseAlert_unread_push_blocked :
    stateD2.supportedNew &&& 1 ≠ 0
  ∧ stateD2.enabledNew &&& 1 = 0
  ∧ stateD2.enabledUnread &&& 1 ≠ 0
  ∧ (addNewAlertToCategory stateD2 0).1.alertCount 0 = 1
  ∧ (addNewAlertToCategory stateD2 0).2.1 = []
  ∧ (addNewAlertToCategory stateD2 0).2.2 = false := by
  decide

/-- C3: evaluation of the code at the failing input.  The control-point
write `[4, 0xFF]` makes the handler access `_alert_status[255]` (the
unconditional category-field write of cpp line 155), which is far outside
the 10-element array. -/
theorem controlPoint_category_write_out_of_bounds :
    255 ∈ alertStatusIndicesAccessed initState [4, 255]
  ∧ ¬ (255 < ANS_ALERT_CATEGORY_COUNT) := by
  decide

/-- C4 counterexample: the claim as stated fails in the reachable state
`stateStale` (enable category 0 on the new axis, then remove it from the
supported-new mask): `tryEnable` for category 0 is a no-op there, yet
`isEnabled` afterwards is true while category 0 is not supported, so the
claimed iff is false. -/
theorem tryEnable_isEnabled_iff_counterexample :
    ¬ (∀ s : ANSState, Reachable s → ∀ c : Nat, c < ANS_ALERT_CATEGORY_COUNT →
        ((isEnabledNew (tryEnableNew s (getCategoryMaskFromId c)).1 c = true)
            ↔ s.supportedNew &&& getCategoryMaskFromId c ≠ 0)
        ∧ ((isEnabledUnread (tryEnableUnread s (getCategoryMaskFromId c)).1 c = true)
            ↔ s.supportedUnread &&& getCategoryMaskFromId c ≠ 0)
        ∧ (s.supportedNew &&& getCategoryMaskFromId c = 0 →
            (tryEnableNew s (getCategoryMaskFromId c)).1 = s
            ∧ (tryEnableNew s (getCategoryMaskFromId c)).2 = false)
        ∧ (s.supportedUnread &&& getCategoryMaskFromId c = 0 →
            (tryEnableUnread s (getCategoryMaskFromId c)).1 = s
            ∧ (tryEnableUnread s (getCategoryMaskFromId c)).2 = false)) := by
  intro h
  have hreach : Reachable stateStale :=
    Reachable.removeSupN _ 0
      (Reachable.disconnect _
        (Reachable.write _ [0, 0] (Reachable.connect _ Reachable.init)))
  have h0 := (h stateStale hreach 0 (by decide)).1
  exact absurd (h0.mp (by decide)) (by decide)

/-- C4 (amended): after `tryEnable(axis, c)` for a concrete category c,
`isEnabled(axis, c)` holds iff c was supported on that axis at the time of
the call or was already enabled there before the call; when c is not
supported the state is unchanged and the call reports false. -/
theorem tryEnable_isEnabled_amended (s : ANSState) (c : Nat)
    (hc : c < ANS_ALERT_CATEGORY_COUNT) :
    (isEnabledNew (tryEnableNew s (getCategoryMaskFromId c)).1 c
       = (decide (s.supportedNew &&& getCategoryMaskFromId c ≠ 0) || isEnabledNew s c))
  ∧ (s.supportedNew &&& getCategoryMaskFromId c = 0 →
       (tryEnableNew s (getCategoryMaskFromId c)).1 = s
       ∧ (tryEnableNew s (getCategoryMaskFromId c)).2 = false)
  ∧ (isEnabledUnread (tryEnableUnread s (getCategoryMaskFromId c)).1 c
       = (decide (s.supportedUnread &&& getCategoryMaskFromId c ≠ 0) || isEnabledUnread s c))
  ∧ (s.supportedUnread &&& getCategoryMaskFromId c = 0 →
       (tryEnableUnread s (getCategoryMaskFromId c)).1 = s
       ∧ (tryEnableUnread s (getCategoryMaskFromId c)).2 = false) := by
  have hm : getCategoryMaskFromId c = 2 ^ c :=
    mask_eq_two_pow c (Nat.lt_of_lt_of_le hc (by decide))
  simp only [hm, isEnabledNew, isEnabledUnread, tryEnableNew, tryEnableUnread]
  refine ⟨?_, ?_, ?_, ?_⟩
  · by_cases hs : s.supportedNew &&& 2 ^ c = 0
    · simp [hs]
    · simp [hs, or_and_two_pow_ne_zero]
  · intro hs0
    simp [hs0]
  · by_cases hs : s.supportedUnread &&& 2 ^ c = 0
    · simp [hs]
    · simp [hs, or_and_two_pow_ne_zero]
  · intro hs0
    simp [hs0]

/-- C4 witness: the amended theorem applied at the constructor state and
category 0. -/
theorem tryEnable_isEnabled_amended_witness :
    0 < ANS_ALERT_CATEGORY_COUNT
  ∧ ((isEnabledNew (tryEnableNew initState (getCategoryMaskFromId 0)).1 0
       = (decide (initState.supportedNew &&& getCategoryMaskFromId 0 ≠ 0)
          || isEnabledNew initState 0))
     ∧ (initState.supportedNew &&& getCategoryMaskFromId 0 = 0 →
          (tryEnableNew initState (getCategoryMaskFromId 0)).1 = initState
          ∧ (tryEnableNew initState (getCategoryMaskFromId 0)).2 = false)
     ∧ (isEnabledUnread (tryEnableUnread initState (getCategoryMaskFromId 0)).1 0
       = (decide (initState.supportedUnread &&& getCategoryMaskFromId 0 ≠ 0)
          || isEnabledUnread initState 0))
     ∧ (initState.supportedUnread &&& getCategoryMaskFromId 0 = 0 →
          (tryEnableUnread initState (getCategoryMaskFromId 0)).1 = initState
          ∧ (tryEnableUnread initState (getCategoryMaskFromId 0)).2 = false)) :=
  ⟨by decide, tryEnable_isEnabled_amended initState 0 (by decide)⟩

/-- C5: while a peer is connected every one of the six configuration
mutators returns false and returns the state unchanged (so all four
bitmasks and every alert counter are untouched). -/
theorem mutators_rejected_while_connected (s : ANSState) (m c : Nat)
    (h : s.connected = true) :
    setSupportedUnreadAlertsCategory s m = (s, false)
  ∧ addSupportedUnreadAlertsCategory s c = (s, false)
  ∧ removeSupportedUnreadAlertsCategory s c = (s, false)
  ∧ setSupportedNewAlertsCategory s m = (s, false)
  ∧ addSupportedNewAlertsCategory s c = (s, false)
  ∧ removeSupportedNewAlertsCategory s c = (s, false) := by
  simp [setSupportedUnreadAlertsCategory, addSupportedUnreadAlertsCategory,
    removeSupportedUnreadAlertsCategory, setSupportedNewAlertsCategory,
    addSupportedNewAlertsCategory, removeSupportedNewAlertsCategory, h]

/-- C5 witness: the theorem applied at a concrete connected state. -/
theorem mutators_rejected_while_connected_witness :
    (onConnected initState).connected = true
  ∧ (setSupportedUnreadAlertsCategory (onConnected initState) 3
       = (onConnected initState, false)
     ∧ addSupportedUnreadAlertsCategory (onConnected initState) 2
       = (onConnected initState, false)
     ∧ removeSupportedUnreadAlertsCategory (onConnected initState) 2
       = (onConnected initState, false)
     ∧ setSupportedNewAlertsCategory (onConnected initState) 3
       = (onConnected initState, false)
     ∧ addSupportedNewAlertsCategory (onConnected initState) 2
       = (onConnected initState, false)
     ∧ removeSupportedNewAlertsCategory (onConnected initState) 2
       = (onConnected initState, false)) :=
  ⟨rfl, mutators_rejected_while_connected (onConnected initState) 3 2 rfl⟩

/-- C6: `onConnected` sets the connected flag and zeroes the counter of
every one of the 10 categories, `onDisconnected` clears the flag and
zeroes them again, and neither transition touches any of the four
supported/enabled bitmasks. -/
theorem connection_transitions_reset_counters (s : ANSState) :
    (onConnected s).connected = true
  ∧ (∀ i, (onConnected s).alertCount i
      = if i < ANS_ALERT_CATEGORY_COUNT then 0 else s.alertCount i)
  ∧ (onConnected s).supportedNew = s.supportedNew
  ∧ (onConnected s).supportedUnread = s.supportedUnread
  ∧ (onConnected s).enabledNew = s.enabledNew
  ∧ (onConnected s).enabledUnread = s.enabledUnread
  ∧ (onDisconnected s).connected = false
  ∧ (∀ i, (onDisconnected s).alertCount i
      = if i < ANS_ALERT_CATEGORY_COUNT then 0 else s.alertCount i)
  ∧ (onDisconnected s).supportedNew = s.supportedNew
  ∧ (onDisconnected s).supportedUnread = s.supportedUnread
  ∧ (onDisconnected s).enabledNew = s.enabledNew
  ∧ (onDisconnected s).enabledUnread = s.enabledUnread :=
  ⟨rfl, fun _ => rfl, rfl, rfl, rfl, rfl, rfl, fun _ => rfl, rfl, rfl, rfl, rfl⟩

/-- C7: a control-point write whose size is neither 1 nor 2 (the empty
buffer included) leaves the whole state untouched - bitmasks, counters
and latched control-point record - and pushes nothing. -/
theorem malformed_control_point_no_effect (s : ANSState) (data : List Nat)
    (h1 : data.length ≠ 1) (h2 : data.length ≠ 2) :
    onDataWrittenHandler s data = (s, []) := by
  have hcond : data.length < 1 ∨ data.length > 2 := by omega
  unfold onDataWrittenHandler
  rw [if_pos hcond]

/-- C7 witness: the theorem applied to a concrete 3-byte buffer. -/
theorem malformed_control_point_no_effect_witness :
    ([1, 2, 3] : List Nat).length ≠ 1
  ∧ ([1, 2, 3] : List Nat).length ≠ 2
  ∧ onDataWrittenHandler initState [1, 2, 3] = (initState, []) :=
  ⟨by decide, by decide,
   malformed_control_point_no_effect initState [1, 2, 3] (by decide) (by decide)⟩

/-- C8: any 1-byte control-point write zeroes the counter of every one of
the 10 categories, regardless of the byte's value and of the prior
counters, pushes no notification and leaves the four bitmasks unchanged. -/
theorem one_byte_write_clears_all_counters (s : ANSState) (b : Nat) :
    (onDataWrittenHandler s [b]).2 = []
  ∧ (∀ j, (onDataWrittenHandler s [b]).1.alertCount j
      = if j < ANS_ALERT_CATEGORY_COUNT then 0 else s.alertCount j)
  ∧ (onDataWrittenHandler s [b]).1.supportedNew = s.supportedNew
  ∧ (onDataWrittenHandler s [b]).1.supportedUnread = s.supportedUnread
  ∧ (onDataWrittenHandler s [b]).1.enabledNew = s.enabledNew
  ∧ (onDataWrittenHandler s [b]).1.enabledUnread = s.enabledUnread :=
  ⟨rfl, fun _ => rfl, rfl, rfl, rfl, rfl⟩

/-- C9: the two disable commands are gated on the category being
supported on the matching axis: when supported, the command clears
exactly the category's bit of the matching enabled mask; when not
supported the enabled mask is unchanged; in every case no notification is
pushed. -/
theorem disable_commands_gated_on_supported (s : ANSState) (c : Nat)
    (hc : c < ANS_ALERT_CATEGORY_COUNT)
    (hEN : s.enabledNew < 65536) (hEU : s.enabledUnread < 65536) :
    (onDataWrittenHandler s [2, c]).2 = []
  ∧ (onDataWrittenHandler s [3, c]).2 = []
  ∧ (s.supportedNew &&& getCategoryMaskFromId c ≠ 0 →
      ((onDataWrittenHandler s [2, c]).1.enabledNew.testBit c = false
       ∧ ∀ j, j ≠ c →
           (onDataWrittenHandler s [2, c]).1.enabledNew.testBit j
             = s.enabledNew.testBit j))
  ∧ (s.supportedNew &&& getCategoryMaskFromId c = 0 →
      (onDataWrittenHandler s [2, c]).1.enabledNew = s.enabledNew)
  ∧ (s.supportedUnread &&& getCategoryMaskFromId c ≠ 0 →
      ((onDataWrittenHandler s [3, c]).1.enabledUnread.testBit c = false
       ∧ ∀ j, j ≠ c →
           (onDataWrittenHandler s [3, c]).1.enabledUnread.testBit j
             = s.enabledUnread.testBit j))
  ∧ (s.supportedUnread &&& getCategoryMaskFromId c = 0 →
      (onDataWrittenHandler s [3, c]).1.enabledUnread = s.enabledUnread) := by
  have hc16 : c < 16 := Nat.lt_of_lt_of_le hc (by decide)
  have hm : getCategoryMaskFromId c = 2 ^ c := mask_eq_two_pow c hc16
  refine ⟨rfl, rfl, ?_, ?_, ?_, ?_⟩
  · intro hs
    rw [hm] at hs
    have hred : (onDataWrittenHandler s [2, c]).1.enabledNew
        = s.enabledNew &&& (65535 ^^^ 2 ^ c) := by
      simp [onDataWrittenHandler, dispatchCommand, latchControlPoint,
        tryDisableNew, hm, hs]
    rw [hred]
    exact ⟨and_compl_testBit_self _ _ hc16,
           fun j hj => and_compl_testBit_other _ _ _ hEN hj⟩
  · intro hs0
    rw [hm] at hs0
    simp [onDataWrittenHandler, dispatchCommand, latchControlPoint,
      tryDisableNew, hm, hs0]
  · intro hs
    rw [hm] at hs
    have hred : (onDataWrittenHandler s [3, c]).1.enabledUnread
        = s.enabledUnread &&& (65535 ^^^ 2 ^ c) := by
      simp [onDataWrittenHandler, dispatchCommand, latchControlPoint,
        tryDisableUnread, hm, hs]
    rw [hred]
    exact ⟨and_compl_testBit_self _ _ hc16,
           fun j hj => and_compl_testBit_other _ _ _ hEU hj⟩
  · intro hs0
    rw [hm] at hs0
    simp [onDataWrittenHandler, dispatchCommand, latchControlPoint,
      tryDisableUnread, hm, hs0]

/-- C9 witness: the theorem applied at the constructor state and
category 1 (which the constructor does not mark supported). -/
theorem disable_commands_gated_on_supported_witness :
    1 < ANS_ALERT_CATEGORY_COUNT
  ∧ initState.enabledNew < 65536
  ∧ initState.enabledUnread < 65536
  ∧ ((onDataWrittenHandler initState [2, 1]).2 = []
     ∧ (onDataWrittenHandler initState [3, 1]).2 = []
     ∧ (initState.supportedNew &&& getCategoryMaskFromId 1 ≠ 0 →
         ((onDataWrittenHandler initState [2, 1]).1.enabledNew.testBit 1 = false
          ∧ ∀ j, j ≠ 1 →
              (onDataWrittenHandler initState [2, 1]).1.enabledNew.testBit j
                = initState.enabledNew.testBit j))
     ∧ (initState.supportedNew &&& getCategoryMaskFromId 1 = 0 →
         (onDataWrittenHandler initState [2, 1]).1.enabledNew = initState.enabledNew)
     ∧ (initState.supportedUnread &&& getCategoryMaskFromId 1 ≠ 0 →
         ((onDataWrittenHandler initState [3, 1]).1.enabledUnread.testBit 1 = false
          ∧ ∀ j, j ≠ 1 →
              (onDataWrittenHandler initState [3, 1]).1.enabledUnread.testBit j
                = initState.enabledUnread.testBit j))
     ∧ (initState.supportedUnread &&& getCategoryMaskFromId 1 = 0 →
         (onDataWrittenHandler initState [3, 1]).1.enabledUnread
           = initState.enabledUnread)) :=
  ⟨by decide, by decide, by decide,
   disable_commands_gated_on_supported initState 1 (by decide) (by decide) (by decide)⟩

/-- C10: for every concrete category c the mask/id conversions round-trip
to the single-bit mask `1 <<< c`, and the mask of the ALL sentinel (0xFF)
is the fixed constant 0x03FF, which is not a single-bit mask. -/
theorem category_mask_roundtrip (c : Nat) (hc : c < ANS_ALERT_CATEGORY_COUNT) :
    getCategoryMaskFromId (getCategoryIdFromMask (getCategoryMaskFromId c)) = 1 <<< c
  ∧ getCategoryMaskFromId 255 = 1023
  ∧ ∀ k : Nat, getCategoryMaskFromId 255 ≠ 1 <<< k := by
  refine ⟨?_, by decide, ?_⟩
  · have hc10 : c < 10 := hc
    interval_cases c <;> decide
  · intro k hk
    have h1023 : (1023 : Nat) = 2 ^ k := by
      rw [Nat.one_shiftLeft] at hk
      simpa [getCategoryMaskFromId] using hk
    rcases Nat.lt_or_ge k 10 with h | h
    · interval_cases k <;> norm_num at h1023
    · have hle : (2 : Nat) ^ 10 ≤ 2 ^ k := Nat.pow_le_pow_right (by decide) h
      have h1024 : (2 : Nat) ^ 10 = 1024 := by norm_num
      omega

/-- C10 witness: the theorem applied at category 4. -/
theorem category_mask_roundtrip_witness :
    4 < ANS_ALERT_CATEGORY_COUNT
  ∧ (getCategoryMaskFromId (getCategoryIdFromMask (getCategoryMaskFromId 4)) = 1 <<< 4
     ∧ getCategoryMaskFromId 255 = 1023
     ∧ ∀ k : Nat, getCategoryMaskFromId 255 ≠ 1 <<< k) :=
  ⟨by decide, category_mask_roundtrip 4 (by decide)⟩
